import Mathlib

/-!
Verification of the battery capacity-retention calculator
(`src/project/streamlit_app.py`) against its specification.

The Streamlit script is embedded shallowly: each render pass is a pure
function from the model-load outcome and the current form inputs to the
list of user-visible UI events emitted in script order.  Python floats are
modelled as rationals; the `%`-style formatting used by the script
(`%.3f`, `%.2e`, `:.2f`) is modelled by explicit decimal formatting with
round-half-even, the rounding Python's fixed/scientific formatting uses.
-/

namespace BatteryApp

/-! ## Decimal formatting (model of Python percent-style formatting) -/

/-- Fuel-driven base-10 logarithm on naturals: `natLog10Aux fuel n` is the
number of times `n` can be divided by 10 before dropping below 10, provided
`fuel` is large enough (taking `fuel = n` always is). -/
def natLog10Aux : Nat → Nat → Nat
  | 0, _ => 0
  | fuel + 1, n => if n < 10 then 0 else natLog10Aux fuel (n / 10) + 1

/-- `natLog10 n` is the floor of the base-10 logarithm of `n` (0 for `n = 0`). -/
def natLog10 (n : Nat) : Nat := natLog10Aux n n

/-- Floor of a rational, computed with floor division on the numerator. -/
def ratFloor (q : ℚ) : ℤ := Int.fdiv q.num q.den

/-- Round-half-even (banker's rounding) of a rational to an integer: the
rounding mode Python uses when formatting a value with `%.Nf` / `%.Ne`. -/
def roundHalfEven (q : ℚ) : ℤ :=
  let f : ℤ := ratFloor q
  let frac : ℚ := q - (f : ℚ)
  if frac < 1 / 2 then f
  else if 1 / 2 < frac then f + 1
  else if f % 2 = 0 then f else f + 1

/-- Pad a string with leading zeros to a total length of `n`. -/
def padLeftZeros (s : String) (n : Nat) : String :=
  String.mk (List.replicate (n - s.length) '0') ++ s

/-- Fixed-point formatting of a nonnegative rational with `prec` digits
after the decimal point (the nonnegative core of Python's `%.Nf`). -/
def formatFixedNN (prec : Nat) (q : ℚ) : String :=
  let n := (roundHalfEven (q * (10 : ℚ) ^ prec)).toNat
  let ip := n / 10 ^ prec
  let fp := n % 10 ^ prec
  if prec = 0 then toString ip
  else toString ip ++ "." ++ padLeftZeros (toString fp) prec

/-- Python's `%.Nf` fixed-point formatting on rationals. -/
def formatFixed (prec : Nat) (q : ℚ) : String :=
  if q < 0 then "-" ++ formatFixedNN prec (-q) else formatFixedNN prec q

/-- Multiply a rational by `10 ^ k` for an integer `k`. -/
def shift10 (q : ℚ) (k : ℤ) : ℚ :=
  if 0 ≤ k then q * (10 : ℚ) ^ k.toNat else q / (10 : ℚ) ^ (-k).toNat

/-- For `q > 0`, the integer `e` with `10 ^ e ≤ q < 10 ^ (e + 1)`. -/
def qlog10 (q : ℚ) : ℤ :=
  if 1 ≤ q then (natLog10 (ratFloor q).toNat : ℤ)
  else
    let n := q.num.toNat
    let d := q.den
    let j := natLog10 (d / n)
    if d ≤ n * 10 ^ j then -(j : ℤ) else -(j + 1 : ℤ)

/-- Scientific formatting of a positive rational with `prec` mantissa
digits after the point (the positive core of Python's `%.Ne`). -/
def formatSciPos (prec : Nat) (q : ℚ) : String :=
  let e0 := qlog10 q
  let scaled := roundHalfEven (shift10 q ((prec : ℤ) - e0))
  let ne := if (10 : ℤ) ^ (prec + 1) ≤ scaled then ((10 : ℤ) ^ prec, e0 + 1) else (scaled, e0)
  let n := ne.1.toNat
  let e := ne.2
  let ip := n / 10 ^ prec
  let fp := n % 10 ^ prec
  let mant := if prec = 0 then toString ip
    else toString ip ++ "." ++ padLeftZeros (toString fp) prec
  let esign := if e < 0 then "-" else "+"
  mant ++ "e" ++ esign ++ padLeftZeros (toString e.natAbs) 2

/-- Python's `%.Ne` scientific formatting on rationals. -/
def formatSci (prec : Nat) (q : ℚ) : String :=
  if q = 0 then
    (if prec = 0 then "0" else "0." ++ padLeftZeros "" prec) ++ "e+00"
  else if q < 0 then "-" ++ formatSciPos prec (-q)
  else formatSciPos prec q

/-! ## Data model: pandas cells, DataFrames, the model handle, UI events -/

/-- A cell of a pandas DataFrame column: the script only ever stores
numbers and strings. -/
inductive PyCell where
  | num (q : ℚ)
  | str (s : String)
  deriving DecidableEq, Repr

/-- A pandas DataFrame, as the script builds them: an ordered association
of column names to columns. -/
abbrev DataFrame := List (String × List PyCell)

/-- The deserialized regression model handle: an opaque `predict`
capability over a DataFrame, returning the list of outputs or raising an
exception (modelled as `Except` carrying the exception's description). -/
structure Model where
  predict : DataFrame → Except String (List ℚ)

/-- A user-visible UI event emitted during a render pass, in script order. -/
inductive UIEvent where
  | title (s : String)
  | markdown (s : String)
  | header (s : String)
  | subheader (s : String)
  | success (s : String)
  | errorMsg (s : String)
  | info (s : String)
  | metric (label value : String)
  | table (df : DataFrame)
  | expander (label body : String)
  deriving DecidableEq, Repr

/-- The current state of the sidebar form for one render pass: the typed
values (`none` = untouched default) and whether the trigger button fired. -/
structure Inputs where
  porosityInput : Option ℚ
  diffusivityInput : Option ℚ
  predict_button : Bool

/-- Outcome of `joblib.load('battery_model.pkl')`: success, the file being
absent (`FileNotFoundError`), or any other exception with its description. -/
inductive LoadOutcome where
  | found (m : Model)
  | fileNotFound
  | loadError (msg : String)

/-! ## The script, embedded (src/project/streamlit_app.py) -/

/-- `load_model` (lines 10-21): on success the handle; on failure the
user-visible error events emitted before `st.stop()` halts the script. -/
def load_model : LoadOutcome → Except (List UIEvent) Model
  | LoadOutcome.found m => Except.ok m
  | LoadOutcome.fileNotFound => Except.error
      [UIEvent.errorMsg "battery_model.pkl 파일을 찾을 수 없습니다!",
       UIEvent.errorMsg "먼저 모델을 훈련하고 저장해주세요."]
  | LoadOutcome.loadError msg => Except.error
      [UIEvent.errorMsg ("모델 로드 중 오류가 발생했습니다: " ++ msg)]

/-- A Streamlit `st.number_input` widget configuration (lines 29-47). -/
structure NumberInputCfg where
  min_value : ℚ
  max_value : ℚ
  value : ℚ
  step : ℚ
  format : String

/-- The porosity control: bounds `[0, 1]`, default `0.365`, step `0.001`,
format `%.3f` (lines 29-37). -/
def porosityCfg : NumberInputCfg :=
  { min_value := 0, max_value := 1, value := 365 / 1000,
    step := 1 / 1000, format := "%.3f" }

/-- The diffusivity control: bounds `[1e-9, 1e-6]`, default `9.5e-8`,
step `1e-9`, format `%.2e` (lines 39-47). -/
def diffusivityCfg : NumberInputCfg :=
  { min_value := 1 / 1000000000, max_value := 1 / 1000000,
    value := 95 / 1000000000, step := 1 / 1000000000, format := "%.2e" }

/-- The value a `number_input` control yields for the current pass: the
typed value (or the default when untouched), clamped inclusively to the
control's `[min_value, max_value]` range by the control itself. -/
def NumberInputCfg.run (c : NumberInputCfg) (user : Option ℚ) : ℚ :=
  let v := user.getD c.value
  if v < c.min_value then c.min_value
  else if c.max_value < v then c.max_value
  else v

/-- `input_data` (lines 55-58): the single-row two-column DataFrame handed
to `model.predict`, with the exact column names the script uses. -/
def input_data (porosity diffusivity : ℚ) : DataFrame :=
  [("Porosity", [PyCell.num porosity]),
   ("diffusivity", [PyCell.num diffusivity])]

/-- The description of the exception `prediction[0]` raises when the
predict output is empty (numpy `IndexError`). -/
def indexErrorMsg : String := "index 0 is out of bounds for axis 0 with size 0"

/-- `prediction[0]` (line 61): first element of the predict output, or an
`IndexError` when the output is empty. -/
def firstOutput : List ℚ → Except String ℚ
  | [] => Except.error indexErrorMsg
  | v :: _ => Except.ok v

/-- The inference-failure message of line 89, parameterized by `str(e)`. -/
def inferErrorText (e : String) : String :=
  "예측 중 오류가 발생했습니다: " ++ e

/-- The percentage string rendered at line 67: the prediction formatted
with two decimals, followed by `%`. -/
def resultString (v : ℚ) : String := formatFixed 2 v ++ "%"

/-- The HTML of the result card (lines 64-69) before the percentage. -/
def resultHtmlPre : String :=
  "\n            <div style=\"padding: 20px; background-color: #e8f5e8; border-radius: 10px; border-left: 5px solid #4CAF50;\">\n                <h2 style=\"color: #2e7d32; margin: 0;\">예상 배터리 용량</h2>\n                <h1 style=\"color: #1b5e20; margin: 10px 0;\">"

/-- The HTML of the result card (lines 64-69) after the percentage. -/
def resultHtmlPost : String := "</h1>\n            </div>\n            "

/-- The full markdown payload of the result card (lines 64-69). -/
def resultHtml (v : ℚ) : String := resultHtmlPre ++ resultString v ++ resultHtmlPost

/-- The events of the success path of the inference branch (lines 63-86):
result card plus the echo of the two submitted inputs. -/
def successPanel (porosity diffusivity v : ℚ) : List UIEvent :=
  [UIEvent.subheader "예측 결과",
   UIEvent.markdown (resultHtml v),
   UIEvent.subheader "입력값 확인",
   UIEvent.metric "Porosity" (formatFixed 3 porosity),
   UIEvent.metric "Diffusivity" (formatSci 2 diffusivity)]

/-- The inference branch of `col1` (lines 53-89): build `input_data`, call
`predict`, extract the first output; any exception along the way is caught
by the `except` clause and rendered as a single error message. -/
def inferBranch (m : Model) (porosity diffusivity : ℚ) : List UIEvent :=
  match Except.bind (m.predict (input_data porosity diffusivity)) firstOutput with
  | Except.ok v => successPanel porosity diffusivity v
  | Except.error e => [UIEvent.errorMsg (inferErrorText e)]

/-- `example_data` (lines 95-100): the static illustrative table. -/
def example_data : DataFrame :=
  [("구분", [PyCell.str "최소값", PyCell.str "평균값", PyCell.str "최대값"]),
   ("Porosity", [PyCell.num (313 / 1000), PyCell.num (365 / 1000), PyCell.num (428 / 1000)]),
   ("Diffusivity", [PyCell.str "4.22e-08", PyCell.str "9.49e-08", PyCell.str "1.75e-07"]),
   ("예상 범위", [PyCell.str "91% ~ 95%", PyCell.str "95% ~ 96%", PyCell.str "96% ~ 99%"])]

/-- The `else` branch of `col1` (lines 91-102): prompt plus example table. -/
def exampleBranch : List UIEvent :=
  [UIEvent.info "왼쪽 사이드바에서 값을 입력하고 **예측하기** 버튼을 클릭하세요.",
   UIEvent.subheader "입력 예시",
   UIEvent.table example_data]

/-- Page header events (lines 6-8). -/
def headerEvents : List UIEvent :=
  [UIEvent.title "배터리 용량 예측기",
   UIEvent.markdown "**인공지능 모델을 사용한 배터리 용량 예측 시스템**",
   UIEvent.markdown "---"]

/-- The load-success confirmation of line 24. -/
def loadedMsg : String := "모델이 성공적으로 로드되었습니다!"

/-- Sidebar header events (lines 26-27). -/
def sidebarEvents : List UIEvent :=
  [UIEvent.header "입력 파라미터",
   UIEvent.markdown "배터리 특성 값을 입력하세요:"]

/-- The static `col2` panel (lines 104-125). -/
def col2Events : List UIEvent :=
  [UIEvent.subheader "모델 설명",
   UIEvent.metric "양극 활물질" "NCM811",
   UIEvent.metric "바인더" "PVDF",
   UIEvent.metric "도전재" "Super P-Li",
   UIEvent.metric "슬러리 조성 (활:도:바)" "94:3:3"]

/-- The static trailing content (lines 127-169): separators, the two
expanders, and the footer. -/
def tailEvents : List UIEvent :=
  [UIEvent.markdown "---",
   UIEvent.expander "사용법 안내" "사용 방법 / 입력 범위 가이드 / 주의사항",
   UIEvent.expander "모델 정보" "사용된 알고리즘 / 특성 중요도 / 훈련 데이터",
   UIEvent.markdown "---",
   UIEvent.markdown "배터리 용량 예측 시스템 | XGBoost ML Model | Built with Streamlit"]

/-- One full render pass of the script: from the load outcome and current
form state to the user-visible events, in script order.  A load failure
emits its errors and stops (`st.stop()`) before the success message, the
sidebar form, and both columns. -/
def renderApp (load : LoadOutcome) (inp : Inputs) : List UIEvent :=
  match load_model load with
  | Except.error evs => headerEvents ++ evs
  | Except.ok m =>
    let porosity := porosityCfg.run inp.porosityInput
    let diffusivity := diffusivityCfg.run inp.diffusivityInput
    headerEvents ++ [UIEvent.success loadedMsg] ++ sidebarEvents ++
      (if inp.predict_button then inferBranch m porosity diffusivity else exampleBranch) ++
      col2Events ++ tailEvents

/-! ## Observations on render output -/

/-- Is an event a `st.error` message? -/
def isErrorEv : UIEvent → Bool
  | UIEvent.errorMsg _ => true
  | _ => false

/-- Is the prediction-result/error panel visible in the events: either the
result subheader of the success path or a caught-error message? -/
def resultPanelShown (evs : List UIEvent) : Bool :=
  evs.any fun ev =>
    match ev with
    | UIEvent.subheader s => s == "예측 결과"
    | UIEvent.errorMsg _ => true
    | _ => false

/-- Is the example-table panel visible in the events: the prompt or the
static example table? -/
def examplePanelShown (evs : List UIEvent) : Bool :=
  evs.any fun ev =>
    match ev with
    | UIEvent.table df => df == example_data
    | UIEvent.info _ => true
    | _ => false

/-! ## Concrete model handles used to instantiate theorems -/

/-- A model that predicts `95.0` for every row. -/
def constModel95 : Model := ⟨fun _ => Except.ok [95]⟩

/-- A model whose predict call raises an exception described as given. -/
def raisingModel (e : String) : Model := ⟨fun _ => Except.error e⟩

/-- A model whose predict call returns an empty output array. -/
def emptyOutputModel : Model := ⟨fun _ => Except.ok []⟩

example : formatFixed 2 95 = "95.00" := by with_unfolding_all decide
example : formatFixed 3 (365 / 1000) = "0.365" := by with_unfolding_all decide
example : formatFixed 3 (313 / 1000) = "0.313" := by with_unfolding_all decide
example : formatSci 2 (95 / 1000000000) = "9.50e-08" := by with_unfolding_all decide
example : formatSci 2 (1 / 1000000000) = "1.00e-09" := by with_unfolding_all decide
example : formatSci 2 (1 / 1000000) = "1.00e-06" := by with_unfolding_all decide
example : formatSci 2 (9999 / 100000000) = "1.00e-04" := by with_unfolding_all decide

/-! ## Helper lemmas -/

/-- Whatever `predict` does, the inference branch always renders the
result/error panel. -/
lemma resultPanelShown_inferBranch (m : Model) (p d : ℚ) :
    resultPanelShown (inferBranch m p d) = true := by
  unfold inferBranch
  cases hb : Except.bind (m.predict (input_data p d)) firstOutput with
  | ok v => simp [resultPanelShown, successPanel]
  | error e => simp [resultPanelShown]

/-- The inference branch never renders the example panel. -/
lemma examplePanelShown_inferBranch (m : Model) (p d : ℚ) :
    examplePanelShown (inferBranch m p d) = false := by
  unfold inferBranch
  cases hb : Except.bind (m.predict (input_data p d)) firstOutput with
  | ok v => simp [examplePanelShown, successPanel]
  | error e => simp [examplePanelShown]

/-- An untouched control whose default lies inside its bounds yields the
default. -/
lemma run_none_default (c : NumberInputCfg) (h0 : ¬ c.value < c.min_value)
    (h1 : ¬ c.max_value < c.value) : c.run none = c.value := by
  dsimp only [NumberInputCfg.run, Option.getD]
  rw [if_neg h0, if_neg h1]

/-- The clamped value of a control always lies inside its bounds. -/
lemma clamp_bounds (c : NumberInputCfg) (hc : c.min_value ≤ c.max_value)
    (u : Option ℚ) : c.min_value ≤ c.run u ∧ c.run u ≤ c.max_value := by
  dsimp only [NumberInputCfg.run]
  split_ifs with h1 h2
  · exact ⟨le_refl _, hc⟩
  · exact ⟨hc, le_refl _⟩
  · exact ⟨le_of_not_lt h1, le_of_not_lt h2⟩

/-! ## Claims -/

/-- C1: for every porosity in `[0, 1]` and diffusivity in `[1e-9, 1e-6]`,
running the inference branch after the trigger is pressed produces either
the numeric-percentage result panel or a single caught-error message; no
unhandled exception escapes the branch. -/
theorem inference_branch_total (m : Model) (p d : ℚ)
    (hp0 : 0 ≤ p) (hp1 : p ≤ 1)
    (hd0 : 1 / 1000000000 ≤ d) (hd1 : d ≤ 1 / 1000000) :
    (∃ v : ℚ, inferBranch m p d = successPanel p d v ∧
      UIEvent.markdown (resultHtml v) ∈ inferBranch m p d) ∨
    (∃ e : String, inferBranch m p d = [UIEvent.errorMsg (inferErrorText e)]) := by
  unfold inferBranch
  cases hb : Except.bind (m.predict (input_data p d)) firstOutput with
  | ok v =>
    refine Or.inl ⟨v, rfl, ?_⟩
    simp [successPanel]
  | error e => exact Or.inr ⟨e, rfl⟩

/-- C1 witness: the theorem instantiated at the default form values and a
model that returns `95.0`. -/
theorem inference_branch_total_witness :
    (∃ v : ℚ, inferBranch constModel95 (365 / 1000) (95 / 1000000000) =
        successPanel (365 / 1000) (95 / 1000000000) v ∧
      UIEvent.markdown (resultHtml v) ∈
        inferBranch constModel95 (365 / 1000) (95 / 1000000000)) ∨
    (∃ e : String, inferBranch constModel95 (365 / 1000) (95 / 1000000000) =
      [UIEvent.errorMsg (inferErrorText e)]) :=
  inference_branch_total constModel95 (365 / 1000) (95 / 1000000000)
    (by norm_num) (by norm_num) (by norm_num) (by norm_num)

/-- C2 counterexample: a deserialization failure other than a missing file
(here `str(e) = "invalid load key"`) produces exactly one user-visible
error message, not the two the claim asserts for every load failure. -/
theorem load_error_two_messages_counterexample :
    List.countP isErrorEv
      (renderApp (LoadOutcome.loadError "invalid load key") ⟨none, none, false⟩) = 1 ∧
    List.countP isErrorEv
      (renderApp (LoadOutcome.loadError "invalid load key") ⟨none, none, false⟩) ≠ 2 := by
  refine ⟨?_, ?_⟩ <;> with_unfolding_all decide

/-- C2 amended: a missing artifact file reports exactly two sequential
error messages; any other deserialization failure reports exactly one; in
both cases `st.stop()` halts the pass before the success message, the
sidebar form, and both columns are rendered. -/
theorem load_failure_messages_and_halt (msg : String) (inp : Inputs) :
    renderApp LoadOutcome.fileNotFound inp =
      headerEvents ++
        [UIEvent.errorMsg "battery_model.pkl 파일을 찾을 수 없습니다!",
         UIEvent.errorMsg "먼저 모델을 훈련하고 저장해주세요."] ∧
    List.countP isErrorEv (renderApp LoadOutcome.fileNotFound inp) = 2 ∧
    renderApp (LoadOutcome.loadError msg) inp =
      headerEvents ++ [UIEvent.errorMsg ("모델 로드 중 오류가 발생했습니다: " ++ msg)] ∧
    List.countP isErrorEv (renderApp (LoadOutcome.loadError msg) inp) = 1 := by
  refine ⟨rfl, ?_, rfl, ?_⟩ <;>
  simp [renderApp, load_model, headerEvents, List.countP_append, List.countP_cons, isErrorEv]

/-- C3: any exception during record construction, prediction, or result
extraction is caught; exactly one user-visible error message is shown, its
text extends the exception's description; and the render pass continues
past the branch (the static panels still render), so the session stays
interactive. -/
theorem inference_failure_recoverable (m : Model) (inp : Inputs) (e : String)
    (hb : inp.predict_button = true)
    (he : Except.bind
        (m.predict (input_data (porosityCfg.run inp.porosityInput)
          (diffusivityCfg.run inp.diffusivityInput))) firstOutput =
      Except.error e) :
    renderApp (LoadOutcome.found m) inp =
      headerEvents ++ [UIEvent.success loadedMsg] ++ sidebarEvents ++
        [UIEvent.errorMsg (inferErrorText e)] ++ col2Events ++ tailEvents ∧
    List.countP isErrorEv (renderApp (LoadOutcome.found m) inp) = 1 ∧
    inferErrorText e = "예측 중 오류가 발생했습니다: " ++ e := by
  have h1 : renderApp (LoadOutcome.found m) inp =
      headerEvents ++ [UIEvent.success loadedMsg] ++ sidebarEvents ++
        [UIEvent.errorMsg (inferErrorText e)] ++ col2Events ++ tailEvents := by
    simp [renderApp, load_model, hb, inferBranch, he]
  refine ⟨h1, ?_, rfl⟩
  rw [h1]
  simp [headerEvents, sidebarEvents, col2Events, tailEvents,
    List.countP_append, List.countP_cons, isErrorEv]

/-- C3 witness: the theorem instantiated with a model whose predict call
raises an exception described as `"boom"`. -/
theorem inference_failure_recoverable_witness :
    renderApp (LoadOutcome.found (raisingModel "boom")) ⟨none, none, true⟩ =
      headerEvents ++ [UIEvent.success loadedMsg] ++ sidebarEvents ++
        [UIEvent.errorMsg (inferErrorText "boom")] ++ col2Events ++ tailEvents ∧
    List.countP isErrorEv
      (renderApp (LoadOutcome.found (raisingModel "boom")) ⟨none, none, true⟩) = 1 ∧
    inferErrorText "boom" = "예측 중 오류가 발생했습니다: " ++ "boom" :=
  inference_failure_recoverable (raisingModel "boom") ⟨none, none, true⟩ "boom" rfl rfl

/-- C4: on a trigger press the adapter builds a single-row record whose
column names are exactly `Porosity` and `diffusivity` holding the current
form values, passes it to the model's predict operation, and extracts the
first output value into the success panel. -/
theorem input_record_schema (m : Model) (p d v : ℚ) (rest : List ℚ)
    (h : m.predict (input_data p d) = Except.ok (v :: rest)) :
    input_data p d =
      [("Porosity", [PyCell.num p]), ("diffusivity", [PyCell.num d])] ∧
    inferBranch m p d = successPanel p d v := by
  refine ⟨rfl, ?_⟩
  unfold inferBranch
  rw [h]
  rfl

/-- C4 witness: the theorem instantiated at the default form values and a
model that returns `95.0`. -/
theorem input_record_schema_witness :
    input_data (365 / 1000) (95 / 1000000000) =
      [("Porosity", [PyCell.num (365 / 1000)]),
       ("diffusivity", [PyCell.num (95 / 1000000000)])] ∧
    inferBranch constModel95 (365 / 1000) (95 / 1000000000) =
      successPanel (365 / 1000) (95 / 1000000000) 95 :=
  input_record_schema constModel95 (365 / 1000) (95 / 1000000000) 95 [] rfl

/-- C5: with the default inputs (porosity `0.365`, diffusivity `9.5e-8`)
and a model returning `95.0` for that row, the rendered result card shows
the string `"95.00%"`; in general the scalar result is formatted as a
two-decimal percentage. -/
theorem default_prediction_renders_95 (m : Model)
    (h : m.predict (input_data (365 / 1000) (95 / 1000000000)) = Except.ok [95]) :
    UIEvent.markdown (resultHtml 95) ∈
      renderApp (LoadOutcome.found m) ⟨none, none, true⟩ ∧
    resultString 95 = "95.00%" ∧
    ∀ v : ℚ, resultString v = formatFixed 2 v ++ "%" := by
  have hp : porosityCfg.run none = 365 / 1000 :=
    run_none_default porosityCfg (by norm_num [porosityCfg]) (by norm_num [porosityCfg])
  have hd : diffusivityCfg.run none = 95 / 1000000000 :=
    run_none_default diffusivityCfg (by norm_num [diffusivityCfg])
      (by norm_num [diffusivityCfg])
  refine ⟨?_, by with_unfolding_all decide, fun v => rfl⟩
  simp [renderApp, load_model, hp, hd, inferBranch, h, firstOutput, Except.bind,
    successPanel]

/-- C5 witness: the theorem instantiated with the constant-95 model. -/
theorem default_prediction_renders_95_witness :
    UIEvent.markdown (resultHtml 95) ∈
      renderApp (LoadOutcome.found constModel95) ⟨none, none, true⟩ ∧
    resultString 95 = "95.00%" ∧
    ∀ v : ℚ, resultString v = formatFixed 2 v ++ "%" :=
  default_prediction_renders_95 constModel95 rfl

/-- The result/error-panel flag distributes over concatenation. -/
lemma resultPanelShown_append (a b : List UIEvent) :
    resultPanelShown (a ++ b) = (resultPanelShown a || resultPanelShown b) := by
  simp [resultPanelShown]

/-- The example-panel flag distributes over concatenation. -/
lemma examplePanelShown_append (a b : List UIEvent) :
    examplePanelShown (a ++ b) = (examplePanelShown a || examplePanelShown b) := by
  simp [examplePanelShown]

/-- C6: on every successful prediction the echoed input metrics display
exactly the submitted values, porosity formatted to three decimals and
diffusivity in two-decimal scientific notation. -/
theorem echoed_inputs_formatted (m : Model) (p d v : ℚ) (rest : List ℚ)
    (h : m.predict (input_data p d) = Except.ok (v :: rest)) :
    UIEvent.metric "Porosity" (formatFixed 3 p) ∈ inferBranch m p d ∧
    UIEvent.metric "Diffusivity" (formatSci 2 d) ∈ inferBranch m p d := by
  have hb : inferBranch m p d = successPanel p d v := by
    unfold inferBranch
    rw [h]
    rfl
  rw [hb]
  refine ⟨?_, ?_⟩ <;> simp [successPanel]

/-- C6 witness: the theorem instantiated at the default form values,
together with the concrete byte-for-byte formatted strings. -/
theorem echoed_inputs_formatted_witness :
    (UIEvent.metric "Porosity" (formatFixed 3 (365 / 1000)) ∈
        inferBranch constModel95 (365 / 1000) (95 / 1000000000) ∧
      UIEvent.metric "Diffusivity" (formatSci 2 (95 / 1000000000)) ∈
        inferBranch constModel95 (365 / 1000) (95 / 1000000000)) ∧
    formatFixed 3 (365 / 1000) = "0.365" ∧
    formatSci 2 (95 / 1000000000) = "9.50e-08" :=
  ⟨echoed_inputs_formatted constModel95 (365 / 1000) (95 / 1000000000) 95 [] rfl,
   by with_unfolding_all decide, by with_unfolding_all decide⟩

/-- C7: the two numeric controls carry exactly the documented bounds,
defaults and steps, and every value they can yield lies inside the
inclusive range, so every prediction request satisfies the data model. -/
theorem input_controls_ranges :
    porosityCfg = ⟨0, 1, 365 / 1000, 1 / 1000, "%.3f"⟩ ∧
    diffusivityCfg =
      ⟨1 / 1000000000, 1 / 1000000, 95 / 1000000000, 1 / 1000000000, "%.2e"⟩ ∧
    (∀ u : Option ℚ, 0 ≤ porosityCfg.run u ∧ porosityCfg.run u ≤ 1) ∧
    (∀ u : Option ℚ, 1 / 1000000000 ≤ diffusivityCfg.run u ∧
      diffusivityCfg.run u ≤ 1 / 1000000) := by
  refine ⟨rfl, rfl, fun u => ?_, fun u => ?_⟩
  · exact clamp_bounds porosityCfg (by norm_num [porosityCfg]) u
  · exact clamp_bounds diffusivityCfg (by norm_num [diffusivityCfg]) u

/-- C8: a render pass without a trigger press always shows the static
example table (with its fixed contents) and never a prediction result;
its output is a constant, so no prediction state survives across passes. -/
theorem no_trigger_shows_example (m : Model) (pu du : Option ℚ) :
    renderApp (LoadOutcome.found m) ⟨pu, du, false⟩ =
      headerEvents ++ [UIEvent.success loadedMsg] ++ sidebarEvents ++
        exampleBranch ++ col2Events ++ tailEvents ∧
    UIEvent.table example_data ∈ renderApp (LoadOutcome.found m) ⟨pu, du, false⟩ ∧
    resultPanelShown (renderApp (LoadOutcome.found m) ⟨pu, du, false⟩) = false := by
  have hr : renderApp (LoadOutcome.found m) ⟨pu, du, false⟩ =
      headerEvents ++ [UIEvent.success loadedMsg] ++ sidebarEvents ++
        exampleBranch ++ col2Events ++ tailEvents := rfl
  refine ⟨hr, ?_, ?_⟩
  · rw [hr]
    simp [headerEvents, sidebarEvents, exampleBranch, col2Events, tailEvents]
  · rw [hr]
    simp [resultPanelShown, headerEvents, sidebarEvents, exampleBranch,
      col2Events, tailEvents]

/-- C9: after a successful load, each render pass shows the
prediction-result/error panel exactly when the trigger was pressed, and
the example-table panel exactly when it was not — never both, never
neither. -/
theorem exactly_one_panel (m : Model) (inp : Inputs) :
    resultPanelShown (renderApp (LoadOutcome.found m) inp) = inp.predict_button ∧
    examplePanelShown (renderApp (LoadOutcome.found m) inp) = !inp.predict_button := by
  obtain ⟨pu, du, b⟩ := inp
  cases b with
  | false =>
    have hr : renderApp (LoadOutcome.found m) ⟨pu, du, false⟩ =
        headerEvents ++ [UIEvent.success loadedMsg] ++ sidebarEvents ++
          exampleBranch ++ col2Events ++ tailEvents := rfl
    refine ⟨?_, ?_⟩ <;> rw [hr] <;>
      simp [resultPanelShown, examplePanelShown, headerEvents, sidebarEvents,
        exampleBranch, col2Events, tailEvents]
  | true =>
    have hr : renderApp (LoadOutcome.found m) ⟨pu, du, true⟩ =
        headerEvents ++ [UIEvent.success loadedMsg] ++ sidebarEvents ++
          inferBranch m (porosityCfg.run pu) (diffusivityCfg.run du) ++
          col2Events ++ tailEvents := rfl
    refine ⟨?_, ?_⟩ <;> rw [hr]
    · simp only [resultPanelShown_append, resultPanelShown_inferBranch]
      simp [resultPanelShown, headerEvents, sidebarEvents, col2Events, tailEvents]
    · simp only [examplePanelShown_append, examplePanelShown_inferBranch]
      simp [examplePanelShown, headerEvents, sidebarEvents, col2Events, tailEvents]

/-- C10: a predict call returning an empty output makes `prediction[0]`
raise, which the surrounding handler catches and reports as the
inference-failure message — the empty-output case never crashes the pass. -/
theorem empty_output_caught (m : Model) (p d : ℚ)
    (h : m.predict (input_data p d) = Except.ok []) :
    inferBranch m p d = [UIEvent.errorMsg (inferErrorText indexErrorMsg)] := by
  unfold inferBranch
  rw [h]
  rfl

/-- C10 witness: the theorem instantiated with a model returning an empty
output array at the default form values. -/
theorem empty_output_caught_witness :
    inferBranch emptyOutputModel (365 / 1000) (95 / 1000000000) =
      [UIEvent.errorMsg (inferErrorText indexErrorMsg)] :=
  empty_output_caught emptyOutputModel (365 / 1000) (95 / 1000000000) rfl

end BatteryApp
